import Mathlib

/-!
Verification of the authentication and token-lifecycle core of the
fastAPI movie-platform backend.

The Python services (`AuthService`, `RegistrationService`, `PasswordService`,
the token CRUD module and `app/utils/security.py`) are shallowly embedded:
the database is a record of lists of rows, each service method becomes a
pure function from the database (plus the current time and any randomness,
passed explicitly) to an `Except` of the raised error or the updated
database.  SQLAlchemy `select ... .first()` / `scalar_one_or_none()` become
`List.find?`; `delete ... where` becomes `List.filter`; `commit` is the
returned state.

Timestamps are integers (seconds); `timedelta(days=d)` is `d * 86400` and
`timedelta(hours=24)` is `86400`.
-/

/-- Errors raised by the embedded code.  `httpException s d` mirrors
`fastapi.HTTPException(status_code=s, detail=d)`; the remaining
constructors mirror the domain exceptions of `app/exceptions/exceptions.py`
and the Python built-in `ValueError` / `TypeError`. -/
inductive Err where
  | httpException (status : Nat) (detail : String)
  | tokenExpiredError
  | invalidTokenError
  | userNotActiveError
  | invalidCredentialsError
  | tokenNotFoundError
  | valueError (msg : String)
  | typeError (msg : String)
  deriving DecidableEq, Repr

/-- User groups, from `app/modules/users/models/enums.py`. -/
inductive UserGroupEnum where
  | user
  | moderator
  | admin
  deriving DecidableEq, Repr

/-- A row of the `user_groups` table (`UserGroupModel`). -/
structure GroupRow where
  id : Nat
  name : UserGroupEnum
  deriving DecidableEq, Repr

/-- A row of the `users` table (`User` model): surrogate id, email,
bcrypt hash, active flag and group reference. -/
structure UserRow where
  id : Nat
  email : String
  hashedPassword : String
  isActive : Bool
  groupId : Nat
  deriving DecidableEq, Repr

/-- A row of one of the three token tables (`TokenBaseModel`): surrogate id,
opaque token string, expiry timestamp and owning user id. -/
structure TokenRow where
  id : Nat
  token : String
  expiresAt : Int
  userId : Nat
  deriving DecidableEq, Repr

/-- The persistent state touched by the authentication core: the `users` and
`user_groups` tables and the three row-based token tables. -/
structure DB where
  groups : List GroupRow
  users : List UserRow
  activationTokens : List TokenRow
  passwordResetTokens : List TokenRow
  refreshTokens : List TokenRow
  deriving DecidableEq, Repr

/-- Next autoincrement id for a token table. -/
def nextTokenId (rows : List TokenRow) : Nat :=
  (rows.map (fun r => r.id)).foldr max 0 + 1

/-- Next autoincrement id for the users table. -/
def nextUserId (rows : List UserRow) : Nat :=
  (rows.map (fun r => r.id)).foldr max 0 + 1

/-- The password-hashing primitive (passlib `CryptContext` with bcrypt) is an
external library; it is kept abstract as a pair of functions, `hash` and
`verify`, with `verify p (hash p) = true` left to each instantiation. -/
structure Hasher where
  hash : String → String
  verify : String → String → Bool

/-- Modelled from the spec: the Signed-Token Codec
(`app.utils.interfaces.JWTAuthManagerInterface` and its implementation are
not under `src/`).  Per the spec it creates signed access / refresh tokens
embedding `user_id`, and `decode_refresh_token` verifies signature and
expiry, failing with `TokenExpiredError` / `InvalidTokenError`; a
successful decode returns the claims, of which the services use
`user_id`. -/
structure JWTManager where
  createAccessToken : Nat → String
  createRefreshToken : Nat → String
  decodeRefreshToken : String → Except Err Nat

/-! ## Credential Verifier (`app/utils/security.py`) -/

/-- The punctuation character class of the final regex in
`validate_strong_password`. -/
def specialChars : List Char :=
  ['!', '@', '#', '$', '%', '^', '&', '*', '(', ')', ',', '.', '?', '"',
   ':', '\x7b', '\x7d', '|', '<', '>']

/-- Function `validate_strong_password` from `app/utils/security.py` (the body of the
function, applied to its `value` parameter): length at least 8, at least
one of each of `[A-Z]`, `[a-z]`, a digit, and one of the special
characters; each failed check raises `ValueError`. -/
def validate_strong_password (value : String) : Except Err String :=
  if value.length < 8 then
    .error (.valueError "Password must contain at least 8 characters.")
  else if ¬ value.data.any (fun c => decide ('A' ≤ c ∧ c ≤ 'Z')) then
    .error (.valueError "Password must contain at least one uppercase letter.")
  else if ¬ value.data.any (fun c => decide ('a' ≤ c ∧ c ≤ 'z')) then
    .error (.valueError "Password must contain at least one lower letter.")
  else if ¬ value.data.any (fun c => c.isDigit) then
    .error (.valueError "Password must contain at least one digit.")
  else if ¬ value.data.any (fun c => specialChars.contains c) then
    .error (.valueError "Password must contain at least one special character: @, $, !, %, *, ?, #, &.")
  else
    .ok value

/-- The call `validate_strong_password(new_password)` as written in
`PasswordService.change_password`: the function's signature is
`def validate_strong_password(cls, value)`, so the one-argument call raises
`TypeError` before the body runs. -/
def call_validate_strong_password_one_arg (_arg : String) : Except Err String :=
  .error (.typeError
    "validate_strong_password() missing 1 required positional argument: value")

/-! ## Token CRUD validity checks (`app/modules/users/crud/token.py`) -/

/-- CRUD `is_token_valid`: an activation token is valid iff a row with that token
string exists with `expires_at > now` (strict). -/
def is_token_valid (db : DB) (now : Int) (token : String) : Bool :=
  (db.activationTokens.find?
    (fun t => t.token == token && decide (t.expiresAt > now))).isSome

/-- CRUD `is_password_reset_token_valid`: same check on the password-reset
table. -/
def is_password_reset_token_valid (db : DB) (now : Int) (token : String) : Bool :=
  (db.passwordResetTokens.find?
    (fun t => t.token == token && decide (t.expiresAt > now))).isSome

/-- CRUD `is_refresh_token_valid`: same check on the refresh-token table. -/
def is_refresh_token_valid (db : DB) (now : Int) (token : String) : Bool :=
  (db.refreshTokens.find?
    (fun t => t.token == token && decide (t.expiresAt > now))).isSome

/-! ## `AuthService` (`app/modules/users/services/auth_service.py`) -/

/-- Method `AuthService.login`: look the user up by email; raise
`InvalidCredentialsError` when absent or the password does not verify;
raise `UserNotActiveError` when inactive; otherwise mint the signed pair,
persist a refresh-token row expiring `login_time_days` days from now and
return `(access, refresh)` together with the updated state. -/
def login (jm : JWTManager) (hp : Hasher) (loginTimeDays : Int)
    (db : DB) (now : Int) (email password : String) :
    Except Err (String × String × DB) :=
  match db.users.find? (fun u => u.email == email) with
  | none => .error .invalidCredentialsError
  | some user =>
    if ¬ hp.verify password user.hashedPassword then
      .error .invalidCredentialsError
    else if ¬ user.isActive then
      .error .userNotActiveError
    else
      let accessToken := jm.createAccessToken user.id
      let refreshToken := jm.createRefreshToken user.id
      let expiresAt := now + loginTimeDays * 86400
      let row : TokenRow :=
        { id := nextTokenId db.refreshTokens
          token := refreshToken
          expiresAt := expiresAt
          userId := user.id }
      .ok (accessToken, refreshToken,
        { db with refreshTokens := db.refreshTokens ++ [row] })

/-- Method `AuthService._refresh_token_exists`: a bare existence check on the token
string — the row's `expires_at` is not consulted. -/
def refresh_token_exists (db : DB) (token : String) : Bool :=
  (db.refreshTokens.find? (fun r => r.token == token)).isSome

/-- Method `AuthService.refresh_access_token`: decode the signed refresh token,
require the literal string to exist in the refresh-token table
(`TokenNotFoundError` otherwise) and mint a new access token for the
decoded `user_id`.  The method performs no database mutation, so the state
is returned unchanged. -/
def refresh_access_token (jm : JWTManager) (db : DB) (refreshToken : String) :
    Except Err (String × DB) :=
  match jm.decodeRefreshToken refreshToken with
  | .error e => .error e
  | .ok userId =>
    if ¬ refresh_token_exists db refreshToken then
      .error .tokenNotFoundError
    else
      .ok (jm.createAccessToken userId, db)

/-! ## `RegistrationService` (`app/modules/users/services/registration_service.py`) -/

/-- Method `RegistrationService.register_user`: 409 when a user row with the exact
email string exists, 500 when the default USER group is missing; otherwise
the user row is committed (first transaction) and — only when an email
sender is configured — an activation-token row with the model default
expiry of one day is committed (second transaction).  `freshToken` stands
for the `generate_secure_token` column default. -/
def register_user (hp : Hasher) (db : DB) (now : Int)
    (emailSenderConfigured : Bool) (email password freshToken : String) :
    Except Err (UserRow × DB) :=
  match db.users.find? (fun u => u.email == email) with
  | some _ => .error (.httpException 409 "User already exists")
  | none =>
    match db.groups.find? (fun g => g.name == UserGroupEnum.user) with
    | none => .error (.httpException 500 "Default user group not found")
    | some userGroup =>
      let newUser : UserRow :=
        { id := nextUserId db.users
          email := email
          hashedPassword := hp.hash password
          isActive := false
          groupId := userGroup.id }
      let db1 := { db with users := db.users ++ [newUser] }
      if emailSenderConfigured then
        let tokenRow : TokenRow :=
          { id := nextTokenId db1.activationTokens
            token := freshToken
            expiresAt := now + 86400
            userId := newUser.id }
        .ok (newUser,
          { db1 with activationTokens := db1.activationTokens ++ [tokenRow] })
      else
        .ok (newUser, db1)

/-- Method `RegistrationService.activate_user`: 404 when the user is missing, 400
when the token row is missing or owned by another user,
`TokenExpiredError` when `expires_at < now`; on success the user's
`is_active` flag is set and the consumed token row is deleted by id. -/
def activate_user (db : DB) (now : Int) (email token : String) :
    Except Err DB :=
  match db.users.find? (fun u => u.email == email) with
  | none => .error (.httpException 404 "User not found")
  | some user =>
    match db.activationTokens.find? (fun t => t.token == token) with
    | none => .error (.httpException 400 "Invalid or expired token")
    | some activationToken =>
      if activationToken.userId ≠ user.id then
        .error (.httpException 400 "Token does not match user")
      else if activationToken.expiresAt < now then
        .error .tokenExpiredError
      else
        .ok { db with
          users := db.users.map (fun u =>
            if u.id == user.id then { u with isActive := true } else u)
          activationTokens := db.activationTokens.filter (fun t =>
            ¬ t.id == activationToken.id) }

/-- The `select ... order_by(expires_at.desc())` + `.first()` of
`resend_activation_token`: the row with the greatest expiry among the
given rows (first such row on ties). -/
def firstByExpiryDesc : List TokenRow → Option TokenRow
  | [] => none
  | r :: rs =>
    match firstByExpiryDesc rs with
    | none => some r
    | some best => if best.expiresAt > r.expiresAt then some best else some r

/-- Method `RegistrationService.resend_activation_token`: silently returns when the
user is missing or already active; when an unexpired activation token
exists (`expires_at > now`) its token string is re-sent and the state is
untouched; otherwise all of the user's activation-token rows are deleted
and a fresh token (`freshToken`, standing for `secrets.token_urlsafe(32)`)
expiring 24 hours from now is inserted.  The first component is the token
string embedded in the activation link that is sent, `none` when the
method returns without sending. -/
def resend_activation_token (db : DB) (now : Int) (email freshToken : String) :
    Option String × DB :=
  match db.users.find? (fun u => u.email == email) with
  | none => (none, db)
  | some user =>
    if user.isActive then (none, db)
    else
      match firstByExpiryDesc (db.activationTokens.filter (fun t =>
          t.userId == user.id && decide (t.expiresAt > now))) with
      | some tokenObj => (some tokenObj.token, db)
      | none =>
        let kept := db.activationTokens.filter (fun t => ¬ t.userId == user.id)
        let newToken : TokenRow :=
          { id := nextTokenId db.activationTokens
            token := freshToken
            expiresAt := now + 86400
            userId := user.id }
        (some freshToken,
          { db with activationTokens := kept ++ [newToken] })

/-! ## `PasswordService` (`app/modules/users/services/password_service.py`) -/

/-- Method `PasswordService.reset_password_by_token`: 404 when the user is missing,
400 when the reset-token row is missing or owned by another user,
`TokenExpiredError` when `expires_at < now`; then `user.set_password`
hashes and stores `newPassword` — there is no strength validation on this
path — and the consumed token row is deleted by id. -/
def reset_password_by_token (hp : Hasher) (db : DB) (now : Int)
    (email token newPassword : String) : Except Err DB :=
  match db.users.find? (fun u => u.email == email) with
  | none => .error (.httpException 404 "User not found")
  | some user =>
    match db.passwordResetTokens.find? (fun t => t.token == token) with
    | none => .error (.httpException 400 "Invalid or expired token")
    | some resetToken =>
      if resetToken.userId ≠ user.id then
        .error (.httpException 400 "Token does not match user")
      else if resetToken.expiresAt < now then
        .error .tokenExpiredError
      else
        .ok { db with
          users := db.users.map (fun u =>
            if u.id == user.id then
              { u with hashedPassword := hp.hash newPassword }
            else u)
          passwordResetTokens := db.passwordResetTokens.filter (fun t =>
            ¬ t.id == resetToken.id) }

/-- Method `PasswordService.change_password`: fetch the user by id
(`UserService._get_user_by_id`, 404 when missing); 400 when the old
password does not verify, 400 when the new password equals the old one;
then the one-argument call to `validate_strong_password` runs (which in
the source raises `TypeError`, see
`call_validate_strong_password_one_arg`); only if that call returned would
the hash be updated and committed. -/
def change_password (hp : Hasher) (db : DB) (userId : Nat)
    (oldPassword newPassword : String) : Except Err DB :=
  match db.users.find? (fun u => u.id == userId) with
  | none => .error (.httpException 404 "User not found")
  | some user =>
    if ¬ hp.verify oldPassword user.hashedPassword then
      .error (.httpException 400 "Old password is incorrect")
    else if oldPassword == newPassword then
      .error (.httpException 400 "New password must be different")
    else
      match call_validate_strong_password_one_arg newPassword with
      | .error e => .error e
      | .ok _ =>
        .ok { db with
          users := db.users.map (fun u =>
            if u.id == userId then
              { u with hashedPassword := hp.hash newPassword }
            else u) }

/-- Method `PasswordService.send_password_reset_email`: silently returns when the
user is missing; otherwise `create_password_reset_token` inserts a
reset-token row (model defaults: `generate_secure_token`, here
`freshToken`, and a one-day expiry) without touching any existing row. -/
def send_password_reset_email (db : DB) (now : Int)
    (email freshToken : String) : DB :=
  match db.users.find? (fun u => u.email == email) with
  | none => db
  | some user =>
    { db with passwordResetTokens := db.passwordResetTokens ++
        [{ id := nextTokenId db.passwordResetTokens
           token := freshToken
           expiresAt := now + 86400
           userId := user.id }] }

/-! ## Concrete instantiations used by witnesses and counterexamples -/

/-- A deterministic stand-in for the bcrypt hasher: `hash p` tags `p` and
`verify` compares against the tag. -/
def exHasher : Hasher :=
  { hash := fun p => "bcrypt:" ++ p
    verify := fun p h => h == "bcrypt:" ++ p }

/-- A concrete signed-token codec for witnesses: tokens are tagged decimal
user ids, and only strings of the form `RT<n>` decode as refresh
tokens. -/
def exJWT : JWTManager :=
  { createAccessToken := fun uid => "AT" ++ toString uid
    createRefreshToken := fun uid => "RT" ++ toString uid
    decodeRefreshToken := fun s =>
      if s == "RT1" then .ok 1
      else if s == "RT7" then .ok 7
      else .error .invalidTokenError }

/-! ## C7: password-strength validation -/

/-- The structural strength predicate of the claim: length at least 8 and at
least one uppercase letter, lowercase letter, digit and special
character. -/
def strongPassword (value : String) : Prop :=
  8 ≤ value.length ∧
  (∃ c ∈ value.data, 'A' ≤ c ∧ c ≤ 'Z') ∧
  (∃ c ∈ value.data, 'a' ≤ c ∧ c ≤ 'z') ∧
  (∃ c ∈ value.data, c.isDigit) ∧
  (∃ c ∈ value.data, c ∈ specialChars)

instance (value : String) : Decidable (strongPassword value) := by
  unfold strongPassword; infer_instance

/-- C7: `validate_strong_password` returns the password unchanged exactly
when it has length at least 8 and contains an uppercase letter, a
lowercase letter, a digit and a character of the defined punctuation set;
otherwise it raises the weak-password error (a Python `ValueError`, which
the spec labels `WeakPasswordError`), and a successful return is always
the input itself. -/
theorem C7_validate_strength_iff (value : String) :
    (validate_strong_password value = .ok value ↔ strongPassword value) ∧
    (¬ strongPassword value →
      ∃ msg, validate_strong_password value = .error (.valueError msg)) ∧
    (∀ s, validate_strong_password value = .ok s → s = value) := by
  have eA : (value.data.any fun c => decide ('A' ≤ c ∧ c ≤ 'Z')) = true ↔
      ∃ c ∈ value.data, 'A' ≤ c ∧ c ≤ 'Z' := by simp
  have ea : (value.data.any fun c => decide ('a' ≤ c ∧ c ≤ 'z')) = true ↔
      ∃ c ∈ value.data, 'a' ≤ c ∧ c ≤ 'z' := by simp
  have ed : (value.data.any fun c => c.isDigit) = true ↔
      ∃ c ∈ value.data, c.isDigit := by simp
  have es : (value.data.any fun c => specialChars.contains c) = true ↔
      ∃ c ∈ value.data, c ∈ specialChars := by simp
  unfold validate_strong_password strongPassword
  by_cases h1 : value.length < 8
  · rw [if_pos h1]
    exact ⟨⟨nofun, fun hs => absurd hs.1 (by omega)⟩,
      fun _ => ⟨_, rfl⟩, nofun⟩
  rw [if_neg h1]
  by_cases h2 : (value.data.any fun c => decide ('A' ≤ c ∧ c ≤ 'Z')) = true
  case neg =>
    rw [if_pos h2]
    exact ⟨⟨nofun, fun hs => absurd (eA.mpr hs.2.1) h2⟩,
      fun _ => ⟨_, rfl⟩, nofun⟩
  rw [if_neg (not_not_intro h2)]
  by_cases h3 : (value.data.any fun c => decide ('a' ≤ c ∧ c ≤ 'z')) = true
  case neg =>
    rw [if_pos h3]
    exact ⟨⟨nofun, fun hs => absurd (ea.mpr hs.2.2.1) h3⟩,
      fun _ => ⟨_, rfl⟩, nofun⟩
  rw [if_neg (not_not_intro h3)]
  by_cases h4 : (value.data.any fun c => c.isDigit) = true
  case neg =>
    rw [if_pos h4]
    exact ⟨⟨nofun, fun hs => absurd (ed.mpr hs.2.2.2.1) h4⟩,
      fun _ => ⟨_, rfl⟩, nofun⟩
  rw [if_neg (not_not_intro h4)]
  by_cases h5 : (value.data.any fun c => specialChars.contains c) = true
  case neg =>
    rw [if_pos h5]
    exact ⟨⟨nofun, fun hs => absurd (es.mpr hs.2.2.2.2) h5⟩,
      fun _ => ⟨_, rfl⟩, nofun⟩
  rw [if_neg (not_not_intro h5)]
  refine ⟨⟨fun _ => ⟨by omega, eA.mp h2, ea.mp h3, ed.mp h4, es.mp h5⟩,
    fun _ => rfl⟩,
    fun hns => absurd ⟨by omega, eA.mp h2, ea.mp h3, ed.mp h4, es.mp h5⟩ hns,
    fun s h => (Except.ok.inj h).symm⟩

/-- C7 witness: a concrete strong password is returned unchanged and a
concrete weak one is rejected with a `ValueError`. -/
theorem C7_witness :
    validate_strong_password "Abcdef1!" = .ok "Abcdef1!" ∧
    (∃ msg, validate_strong_password "abc" = .error (.valueError msg)) :=
  ⟨(C7_validate_strength_iff "Abcdef1!").1.mpr (by decide),
   (C7_validate_strength_iff "abc").2.1 (by decide)⟩

/-! ## Concrete fixtures -/

/-- The seeded default USER group row. -/
def exGroup : GroupRow := { id := 1, name := UserGroupEnum.user }

/-- An active user fixture. -/
def alice : UserRow :=
  { id := 1, email := "alice@example.com",
    hashedPassword := "bcrypt:Pass1!xy", isActive := true, groupId := 1 }

/-- An inactive (pending-activation) user fixture. -/
def bob : UserRow :=
  { id := 2, email := "bob@example.com",
    hashedPassword := "bcrypt:Bobpass1!", isActive := false, groupId := 1 }

/-- A database with one active user and no token rows. -/
def dbLogin : DB :=
  { groups := [exGroup], users := [alice], activationTokens := [],
    passwordResetTokens := [], refreshTokens := [] }

/-! ## C1: login -/

/-- C1: `login` raises `InvalidCredentialsError` both when no user has the
email and when the stored hash does not verify, raises
`UserNotActiveError` when the credentials are good but the account is
inactive, and otherwise returns the signed `(access, refresh)` pair for
the user's id and appends a refresh-token row for that user whose expiry
is `now` plus `login_time_days` days. -/
theorem C1_login_spec (jm : JWTManager) (hp : Hasher) (days : Int)
    (db : DB) (now : Int) (email password : String) :
    (db.users.find? (fun u => u.email == email) = none →
      login jm hp days db now email password = .error .invalidCredentialsError) ∧
    (∀ user, db.users.find? (fun u => u.email == email) = some user →
      (hp.verify password user.hashedPassword = false →
        login jm hp days db now email password =
          .error .invalidCredentialsError) ∧
      (hp.verify password user.hashedPassword = true → user.isActive = false →
        login jm hp days db now email password = .error .userNotActiveError) ∧
      (hp.verify password user.hashedPassword = true → user.isActive = true →
        login jm hp days db now email password =
          .ok (jm.createAccessToken user.id, jm.createRefreshToken user.id,
            { db with refreshTokens := db.refreshTokens ++
              [{ id := nextTokenId db.refreshTokens
                 token := jm.createRefreshToken user.id
                 expiresAt := now + days * 86400
                 userId := user.id }] }))) := by
  refine ⟨fun hnone => ?_, fun user hsome => ⟨fun hv => ?_, fun hv ha => ?_,
    fun hv ha => ?_⟩⟩
  · unfold login
    rw [hnone]
  · unfold login
    rw [hsome]
    simp [hv]
  · unfold login
    rw [hsome]
    simp [hv, ha]
  · unfold login
    rw [hsome]
    simp [hv, ha]

/-- C1 witness: logging the concrete active user in returns the tagged token
pair and persists the refresh-token row expiring seven days later. -/
theorem C1_login_witness :
    login exJWT exHasher 7 dbLogin 1000 "alice@example.com" "Pass1!xy" =
      .ok (exJWT.createAccessToken alice.id, exJWT.createRefreshToken alice.id,
        { dbLogin with refreshTokens := dbLogin.refreshTokens ++
          [{ id := nextTokenId dbLogin.refreshTokens
             token := exJWT.createRefreshToken alice.id
             expiresAt := 1000 + 7 * 86400
             userId := alice.id }] }) :=
  ((C1_login_spec exJWT exHasher 7 dbLogin 1000 "alice@example.com"
      "Pass1!xy").2 alice (by decide)).2.2 (by decide) (by decide)

/-! ## C2: refresh -/

/-- A database whose only refresh-token row is expired (`expires_at = 0`)
while the signed string `RT7` still decodes. -/
def dbRefreshExpired : DB :=
  { groups := [exGroup], users := [alice], activationTokens := [],
    passwordResetTokens := [],
    refreshTokens := [{ id := 1, token := "RT7", expiresAt := 0, userId := 7 }] }

/-- C2 counterexample: the stored row for `RT7` is expired at time 100, so no
live (existing and unexpired) row matches, yet `refresh_access_token`
returns a fresh access token instead of raising `TokenNotFoundError`: the
store check of `_refresh_token_exists` ignores the row's expiry. -/
theorem C2_refresh_counterexample :
    exJWT.decodeRefreshToken "RT7" = .ok 7 ∧
    is_refresh_token_valid dbRefreshExpired 100 "RT7" = false ∧
    refresh_access_token exJWT dbRefreshExpired "RT7" ≠
      .error Err.tokenNotFoundError ∧
    refresh_access_token exJWT dbRefreshExpired "RT7" =
      .ok (exJWT.createAccessToken 7, dbRefreshExpired) := by
  refine ⟨rfl, rfl, ?_, rfl⟩
  intro h
  rw [show refresh_access_token exJWT dbRefreshExpired "RT7" =
    .ok (exJWT.createAccessToken 7, dbRefreshExpired) from rfl] at h
  cases h

/-- C2 amended: once the signed refresh token decodes, the service raises
`TokenNotFoundError` exactly when no stored refresh-token row has the
presented token string — the row's expiry is not consulted — and
otherwise returns only a new access token for the decoded `user_id`,
leaving the state unchanged (no rotation, no deletion). -/
theorem C2_refresh_amended (jm : JWTManager) (db : DB) (tok : String)
    (uid : Nat) (hdec : jm.decodeRefreshToken tok = .ok uid) :
    (refresh_token_exists db tok = false →
      refresh_access_token jm db tok = .error .tokenNotFoundError) ∧
    (refresh_token_exists db tok = true →
      refresh_access_token jm db tok = .ok (jm.createAccessToken uid, db)) := by
  unfold refresh_access_token
  rw [hdec]
  constructor <;> intro h <;> simp [h]

/-- C2 witness: the amended statement applied to a present row (the expired
one, still honored) and to an absent row (rejected). -/
theorem C2_refresh_witness :
    refresh_access_token exJWT dbRefreshExpired "RT7" =
      .ok (exJWT.createAccessToken 7, dbRefreshExpired) ∧
    refresh_access_token exJWT dbLogin "RT1" = .error .tokenNotFoundError :=
  ⟨(C2_refresh_amended exJWT dbRefreshExpired "RT7" 7 rfl).2 rfl,
   (C2_refresh_amended exJWT dbLogin "RT1" 1 rfl).1 rfl⟩

/-! ## C4: activation -/

/-- C4: `activate_user` raises the user-not-found error (HTTP 404, the
spec's `NotFoundError`) when no user has the email; the invalid-token
error (HTTP 400, the spec's `InvalidTokenError`) when no activation-token
row has the token string or the row belongs to a different user;
`TokenExpiredError` when the row is strictly past its expiry; and on
success sets the user's active flag and deletes exactly the consumed
token row. -/
theorem C4_activate_spec (db : DB) (now : Int) (email token : String) :
    (db.users.find? (fun u => u.email == email) = none →
      activate_user db now email token =
        .error (.httpException 404 "User not found")) ∧
    (∀ user, db.users.find? (fun u => u.email == email) = some user →
      (db.activationTokens.find? (fun t => t.token == token) = none →
        activate_user db now email token =
          .error (.httpException 400 "Invalid or expired token")) ∧
      (∀ atok, db.activationTokens.find? (fun t => t.token == token) = some atok →
        (atok.userId ≠ user.id →
          activate_user db now email token =
            .error (.httpException 400 "Token does not match user")) ∧
        (atok.userId = user.id → atok.expiresAt < now →
          activate_user db now email token = .error .tokenExpiredError) ∧
        (atok.userId = user.id → ¬ atok.expiresAt < now →
          activate_user db now email token =
            .ok { db with
              users := db.users.map (fun u =>
                if u.id == user.id then { u with isActive := true } else u)
              activationTokens := db.activationTokens.filter (fun t =>
                ¬ t.id == atok.id) }))) := by
  refine ⟨fun hnone => ?_, fun user huser => ⟨fun htok => ?_,
    fun atok hatok => ⟨fun hown => ?_, fun hown hexp => ?_,
      fun hown hexp => ?_⟩⟩⟩ <;>
    unfold activate_user
  · rw [hnone]
  · rw [huser, htok]
  · rw [huser, hatok]
    simp [hown]
  · rw [huser, hatok]
    simp [hown, hexp]
  · rw [huser, hatok]
    simp [hown, hexp]

/-- A database with the inactive user `bob` holding one unexpired activation
token. -/
def dbActivate : DB :=
  { groups := [exGroup], users := [bob],
    activationTokens := [{ id := 1, token := "act1", expiresAt := 2000, userId := 2 }],
    passwordResetTokens := [], refreshTokens := [] }

/-- C4 witness: activating `bob` with his live token succeeds, turning the
active flag on and consuming the token row. -/
theorem C4_activate_witness :
    activate_user dbActivate 1000 "bob@example.com" "act1" =
      .ok { dbActivate with
        users := dbActivate.users.map (fun u =>
          if u.id == bob.id then { u with isActive := true } else u)
        activationTokens := dbActivate.activationTokens.filter (fun t =>
          ¬ t.id == (1 : Nat)) } :=
  (((C4_activate_spec dbActivate 1000 "bob@example.com" "act1").2 bob
      (by decide)).2 { id := 1, token := "act1", expiresAt := 2000, userId := 2 }
      (by decide)).2.2 (by decide) (by decide)

/-! ## C3: registration -/

/-- Lowercasing for the claim's case-insensitive email comparison. -/
def lowerStr (s : String) : String := ⟨s.data.map Char.toLower⟩

/-- Case-insensitive string equality, the comparison the claim asserts for
registration conflicts. -/
def eqCaseInsensitive (a b : String) : Bool := lowerStr a == lowerStr b

/-- C3 counterexample: `alice@example.com` is registered, yet registering
`Alice@example.com` (equal up to case) raises no conflict — the lookup
compares email strings exactly — and, with no email sender configured,
the committed new user has no activation-token row at all, so neither the
case-insensitive conflict nor the user-and-token atomicity of the claim
holds. -/
theorem C3_register_counterexample :
    eqCaseInsensitive "Alice@example.com" alice.email = true ∧
    alice ∈ dbLogin.users ∧
    ∃ newUser db',
      register_user exHasher dbLogin 1000 false "Alice@example.com"
        "Pass1!xy" "tokA" = .ok (newUser, db') ∧
      db'.users = dbLogin.users ++ [newUser] ∧
      db'.activationTokens = [] := by
  refine ⟨by decide, by decide, ?_⟩
  exact ⟨_, _, rfl, rfl, rfl⟩

/-- C3 amended: registration raises the 409 conflict exactly when a user row
with the byte-identical email exists (the comparison is case-sensitive);
on success the user row is committed, and an activation-token row
(expiring one day later) is additionally committed — in a separate,
second transaction — only when an email sender is configured, so with no
sender configured the user exists with no activation token. -/
theorem C3_register_amended (hp : Hasher) (db : DB) (now : Int)
    (cfg : Bool) (email password freshToken : String) :
    ((∃ u, db.users.find? (fun u => u.email == email) = some u) →
      register_user hp db now cfg email password freshToken =
        .error (.httpException 409 "User already exists")) ∧
    (db.users.find? (fun u => u.email == email) = none →
      ∀ g, db.groups.find? (fun g => g.name == UserGroupEnum.user) = some g →
        register_user hp db now cfg email password freshToken =
          .ok ({ id := nextUserId db.users, email := email,
                 hashedPassword := hp.hash password, isActive := false,
                 groupId := g.id },
            let db1 := { db with users := db.users ++
              [{ id := nextUserId db.users, email := email,
                 hashedPassword := hp.hash password, isActive := false,
                 groupId := g.id }] }
            if cfg then
              { db1 with activationTokens := db1.activationTokens ++
                [{ id := nextTokenId db1.activationTokens, token := freshToken,
                   expiresAt := now + 86400,
                   userId := nextUserId db.users }] }
            else db1)) := by
  constructor
  · rintro ⟨u, hu⟩
    unfold register_user
    rw [hu]
  · intro hnone g hg
    unfold register_user
    rw [hnone, hg]
    cases cfg <;> simp

/-- C3 amended witness: a conflict on the byte-identical email, and a
sender-configured success committing both the user and their activation
token. -/
theorem C3_register_witness :
    register_user exHasher dbLogin 1000 true "alice@example.com" "Xyzzy1!a"
      "tokB" = .error (.httpException 409 "User already exists") ∧
    register_user exHasher dbLogin 1000 true "carol@example.com" "Xyzzy1!a"
      "tokB" =
      .ok ({ id := nextUserId dbLogin.users, email := "carol@example.com",
             hashedPassword := exHasher.hash "Xyzzy1!a", isActive := false,
             groupId := exGroup.id },
        { dbLogin with
          users := dbLogin.users ++
            [{ id := nextUserId dbLogin.users, email := "carol@example.com",
               hashedPassword := exHasher.hash "Xyzzy1!a", isActive := false,
               groupId := exGroup.id }]
          activationTokens :=
            [{ id := 1
               token := "tokB"
               expiresAt := 1000 + 86400
               userId := nextUserId dbLogin.users }] }) := by
  constructor
  · exact (C3_register_amended exHasher dbLogin 1000 true "alice@example.com"
      "Xyzzy1!a" "tokB").1 ⟨alice, by decide⟩
  · have h := (C3_register_amended exHasher dbLogin 1000 true
      "carol@example.com" "Xyzzy1!a" "tokB").2 (by decide) exGroup (by decide)
    simpa using h

/-! ## C8: expiry boundary -/

/-- A one-user database holding the same token row in all three token
tables, for boundary analysis. -/
def singletonDB (user : UserRow) (r : TokenRow) : DB :=
  { groups := [], users := [user], activationTokens := [r],
    passwordResetTokens := [r], refreshTokens := [r] }

/-- An activation token for `bob` expiring exactly at time 1000. -/
def tokenB : TokenRow := { id := 1, token := "actB", expiresAt := 1000, userId := 2 }

/-- C8 counterexample: at `now = 1000` the row with `expires_at = 1000` is
expired for the CRUD check `is_token_valid`, yet `activate_user` accepts
it and succeeds — so a token whose expiry equals the current time is not
treated as expired by every validity check. -/
theorem C8_boundary_counterexample :
    is_token_valid (singletonDB bob tokenB) 1000 tokenB.token = false ∧
    activate_user (singletonDB bob tokenB) 1000 bob.email tokenB.token =
      .ok { groups := [], users := [{ bob with isActive := true }],
            activationTokens := [], passwordResetTokens := [tokenB],
            refreshTokens := [tokenB] } ∧
    activate_user (singletonDB bob tokenB) 1000 bob.email tokenB.token ≠
      .error Err.tokenExpiredError := by
  have hok : activate_user (singletonDB bob tokenB) 1000 bob.email tokenB.token =
      .ok { groups := [], users := [{ bob with isActive := true }],
            activationTokens := [], passwordResetTokens := [tokenB],
            refreshTokens := [tokenB] } := rfl
  refine ⟨by decide, hok, fun h => ?_⟩
  rw [hok] at h
  simp at h

/-- C8 amended: the CRUD checks (`is_token_valid`,
`is_password_reset_token_valid`, `is_refresh_token_valid`) treat a row as
valid exactly when `expires_at` is strictly in the future, so a row whose
expiry equals the current time is expired for them; but the service-level
checks of `activate_user` and `reset_password_by_token` reject with
`TokenExpiredError` only when `expires_at` is strictly in the past, so a
row whose expiry equals the current time is accepted there. -/
theorem C8_expiry_boundary_amended (hp : Hasher) (now : Int) (r : TokenRow)
    (user : UserRow) (npw : String) (hown : r.userId = user.id) :
    (is_token_valid (singletonDB user r) now r.token =
      decide (r.expiresAt > now)) ∧
    (is_password_reset_token_valid (singletonDB user r) now r.token =
      decide (r.expiresAt > now)) ∧
    (is_refresh_token_valid (singletonDB user r) now r.token =
      decide (r.expiresAt > now)) ∧
    (r.expiresAt < now →
      activate_user (singletonDB user r) now user.email r.token =
        .error .tokenExpiredError) ∧
    (¬ r.expiresAt < now → ∃ db',
      activate_user (singletonDB user r) now user.email r.token = .ok db') ∧
    (r.expiresAt < now →
      reset_password_by_token hp (singletonDB user r) now user.email r.token
        npw = .error .tokenExpiredError) ∧
    (¬ r.expiresAt < now → ∃ db',
      reset_password_by_token hp (singletonDB user r) now user.email r.token
        npw = .ok db') := by
  refine ⟨?_, ?_, ?_, fun hexp => ?_, fun hexp => ?_, fun hexp => ?_,
    fun hexp => ?_⟩
  · by_cases h : r.expiresAt > now <;> simp [is_token_valid, singletonDB, h]
  · by_cases h : r.expiresAt > now <;>
      simp [is_password_reset_token_valid, singletonDB, h]
  · by_cases h : r.expiresAt > now <;>
      simp [is_refresh_token_valid, singletonDB, h]
  · simp [activate_user, singletonDB, hown, hexp]
  · refine ⟨{ groups := []
              users := [{ user with isActive := true }]
              activationTokens := []
              passwordResetTokens := [r]
              refreshTokens := [r] }, ?_⟩
    simp [activate_user, singletonDB, hown, hexp]
  · simp [reset_password_by_token, singletonDB, hown, hexp]
  · refine ⟨{ groups := []
              users := [{ user with hashedPassword := hp.hash npw }]
              activationTokens := [r]
              passwordResetTokens := []
              refreshTokens := [r] }, ?_⟩
    simp [reset_password_by_token, singletonDB, hown, hexp]

/-- C8 witness: the amended statement at the concrete boundary row
(`expires_at = now = 1000`): the CRUD check reports expired while
activation succeeds. -/
theorem C8_expiry_boundary_witness :
    is_token_valid (singletonDB bob tokenB) 1000 tokenB.token =
      decide (tokenB.expiresAt > 1000) ∧
    ∃ db', activate_user (singletonDB bob tokenB) 1000 bob.email tokenB.token =
      .ok db' :=
  ⟨(C8_expiry_boundary_amended exHasher 1000 tokenB bob "x" rfl).1,
   (C8_expiry_boundary_amended exHasher 1000 tokenB bob "x" rfl).2.2.2.2.1
     (by decide)⟩

/-! ## C5: password reset with a weak new password -/

/-- A database with `alice` holding one live password-reset token. -/
def dbReset : DB :=
  { groups := [exGroup], users := [alice], activationTokens := [],
    passwordResetTokens :=
      [{ id := 1, token := "rst1", expiresAt := 2000, userId := 1 }],
    refreshTokens := [] }

/-- The state after the reset below: the weak password is installed as the
new hash and the consumed token row is gone. -/
def dbResetAfter : DB :=
  { groups := [exGroup]
    users := [{ alice with hashedPassword := exHasher.hash "abc" }]
    activationTokens := []
    passwordResetTokens := []
    refreshTokens := [] }

/-- C5: `abc` fails the strength validator, yet `reset_password_by_token`
accepts it — the method never calls the validator (its
`# Validate password rules` comment notwithstanding) — installing the
weak password's hash and deleting the consumed token, after which
replaying the same token is rejected as invalid. -/
theorem C5_weak_password_accepted :
    (∃ msg, validate_strong_password "abc" = .error (.valueError msg)) ∧
    reset_password_by_token exHasher dbReset 1000 "alice@example.com" "rst1"
      "abc" = .ok dbResetAfter ∧
    reset_password_by_token exHasher dbResetAfter 1000 "alice@example.com"
      "rst1" "abc" = .error (.httpException 400 "Invalid or expired token") :=
  ⟨⟨_, rfl⟩, rfl, rfl⟩

/-! ## C9: change_password -/

/-- C9: the two guard errors behave as described (wrong old password, new
equal to old — both HTTP 400), but the success path is unreachable: with
a correct old password and a distinct, provably strong new password the
method still fails, because `validate_strong_password(new_password)`
passes a single argument to a two-parameter function and Python raises
`TypeError` before any update; no hash is ever changed. -/
theorem C9_change_password_type_error :
    change_password exHasher dbLogin 1 "wrongpwd" "Newpass1!" =
      .error (.httpException 400 "Old password is incorrect") ∧
    change_password exHasher dbLogin 1 "Pass1!xy" "Pass1!xy" =
      .error (.httpException 400 "New password must be different") ∧
    validate_strong_password "Newpass1!" = .ok "Newpass1!" ∧
    change_password exHasher dbLogin 1 "Pass1!xy" "Newpass1!" =
      .error (.typeError
        "validate_strong_password() missing 1 required positional argument: value") :=
  ⟨rfl, rfl, rfl, rfl⟩

/-! ## C6: resend activation -/

/-- The row returned by `firstByExpiryDesc` belongs to the list it was
selected from. -/
theorem firstByExpiryDesc_mem {l : List TokenRow} {x : TokenRow}
    (h : firstByExpiryDesc l = some x) : x ∈ l := by
  induction l with
  | nil => cases h
  | cons a l ih =>
    unfold firstByExpiryDesc at h
    cases hl : firstByExpiryDesc l with
    | none =>
      rw [hl] at h
      cases h
      exact List.mem_cons_self _ _
    | some b =>
      rw [hl] at h
      dsimp only at h
      by_cases hc : b.expiresAt > a.expiresAt
      · rw [if_pos hc] at h
        obtain rfl : b = x := Option.some.inj h
        exact List.mem_cons_of_mem _ (ih hl)
      · rw [if_neg hc] at h
        obtain rfl : a = x := Option.some.inj h
        exact List.mem_cons_self _ _

/-- Filtering by a conjunction is filtering twice. -/
theorem filter_and_split (l : List TokenRow) (p q : TokenRow → Bool) :
    l.filter (fun t => p t && q t) = (l.filter p).filter q := by
  induction l with
  | nil => rfl
  | cons a l ih =>
    by_cases hp : p a <;> by_cases hq : q a <;>
      simp [List.filter_cons, hp, hq, ih]

/-- C6: for an inactive existing user, when an unexpired activation token is
found (`expires_at > now`) its token string is re-sent and the state is
untouched (no deletion, no replacement) — so two calls made while that
single token stays valid send the same string both times; only when no
unexpired token remains are the user's stale activation rows deleted and
a fresh token inserted expiring 24 hours from now, and, the fresh string
being new, a call after expiry sends a different token string. -/
theorem C6_resend_activation_spec (db : DB) (now : Int)
    (email freshToken : String) (user : UserRow)
    (huser : db.users.find? (fun u => u.email == email) = some user)
    (hinactive : user.isActive = false) :
    (∀ tokenObj,
      firstByExpiryDesc (db.activationTokens.filter (fun t =>
        t.userId == user.id && decide (t.expiresAt > now))) = some tokenObj →
      resend_activation_token db now email freshToken =
        (some tokenObj.token, db) ∧
      tokenObj ∈ db.activationTokens ∧ tokenObj.userId = user.id ∧
      now < tokenObj.expiresAt) ∧
    (firstByExpiryDesc (db.activationTokens.filter (fun t =>
        t.userId == user.id && decide (t.expiresAt > now))) = none →
      resend_activation_token db now email freshToken =
        (some freshToken,
          { db with activationTokens :=
              db.activationTokens.filter (fun t => ¬ t.userId == user.id) ++
              [{ id := nextTokenId db.activationTokens
                 token := freshToken
                 expiresAt := now + 86400
                 userId := user.id }] })) ∧
    (∀ trow, db.activationTokens.filter (fun r => r.userId == user.id) =
        [trow] →
      ∀ now2 : Int, now < trow.expiresAt → now2 < trow.expiresAt →
      resend_activation_token db now email freshToken =
        (some trow.token, db) ∧
      resend_activation_token db now2 email freshToken =
        (some trow.token, db)) ∧
    (∀ trow, db.activationTokens.filter (fun r => r.userId == user.id) =
        [trow] →
      ¬ now < trow.expiresAt →
      (∀ r ∈ db.activationTokens, freshToken ≠ r.token) →
      (resend_activation_token db now email freshToken).1 = some freshToken ∧
      freshToken ≠ trow.token) := by
  have key : ∀ n : Int, ∀ res,
      firstByExpiryDesc (db.activationTokens.filter (fun t =>
        t.userId == user.id && decide (t.expiresAt > n))) = res →
      resend_activation_token db n email freshToken =
        (match res with
         | some tokenObj => (some tokenObj.token, db)
         | none =>
           (some freshToken,
             { db with activationTokens :=
                 db.activationTokens.filter (fun t => ¬ t.userId == user.id) ++
                 [{ id := nextTokenId db.activationTokens
                    token := freshToken
                    expiresAt := n + 86400
                    userId := user.id }] })) := by
    intro n res hres
    unfold resend_activation_token
    rw [huser]
    simp only [hinactive, Bool.false_eq_true, if_false, hres]
  have keyFilter : ∀ trow, db.activationTokens.filter (fun r =>
      r.userId == user.id) = [trow] → ∀ n : Int, n < trow.expiresAt →
      firstByExpiryDesc (db.activationTokens.filter (fun t =>
        t.userId == user.id && decide (t.expiresAt > n))) = some trow := by
    intro trow hfil n hn
    have hone : ([trow].filter (fun t => decide (t.expiresAt > n))) = [trow] := by
      simp [List.filter_cons, gt_iff_lt, hn]
    rw [filter_and_split, hfil, hone]
    rfl
  have memFilter : ∀ trow, db.activationTokens.filter (fun r =>
      r.userId == user.id) = [trow] → trow ∈ db.activationTokens := by
    intro trow hfil
    have : trow ∈ db.activationTokens.filter (fun r => r.userId == user.id) := by
      rw [hfil]
      exact List.mem_cons_self _ _
    exact (List.mem_filter.mp this).1
  refine ⟨fun tokenObj hpick => ?_, fun hpick => key now none hpick,
    fun trow hfil now2 h1 h2 => ?_, fun trow hfil hexp hfresh => ?_⟩
  · refine ⟨key now (some tokenObj) hpick, ?_⟩
    have hm := firstByExpiryDesc_mem hpick
    rw [List.mem_filter] at hm
    obtain ⟨hmem, hcond⟩ := hm
    rw [Bool.and_eq_true] at hcond
    exact ⟨hmem, by simpa using hcond.1, by simpa using hcond.2⟩
  · exact ⟨key now (some trow) (keyFilter trow hfil now h1),
      key now2 (some trow) (keyFilter trow hfil now2 h2)⟩
  · have hpick : firstByExpiryDesc (db.activationTokens.filter (fun t =>
        t.userId == user.id && decide (t.expiresAt > now))) = none := by
      have hnone : ([trow].filter (fun t => decide (t.expiresAt > now))) = [] := by
        simp [List.filter_cons, gt_iff_lt, hexp]
      rw [filter_and_split, hfil, hnone]
      rfl
    rw [key now none hpick]
    exact ⟨rfl, hfresh trow (memFilter trow hfil)⟩

/-- C6 witness: with `bob`'s single activation token expiring at 2000, two
resends at times 1000 and 1500 both send the stored string `act1` and
leave the state unchanged, while a resend at time 3000 (past expiry)
sends the new string `fresh1`, which differs from `act1`. -/
theorem C6_resend_witness :
    resend_activation_token dbActivate 1000 "bob@example.com" "fresh1" =
      (some "act1", dbActivate) ∧
    resend_activation_token dbActivate 1500 "bob@example.com" "fresh1" =
      (some "act1", dbActivate) ∧
    (resend_activation_token dbActivate 3000 "bob@example.com" "fresh1").1 =
      some "fresh1" ∧
    ("fresh1" : String) ≠ "act1" := by
  have h1 := (C6_resend_activation_spec dbActivate 1000 "bob@example.com"
    "fresh1" bob (by decide) rfl).2.2.1
    { id := 1, token := "act1", expiresAt := 2000, userId := 2 }
    (by decide) 1500 (by decide) (by decide)
  have h2 := (C6_resend_activation_spec dbActivate 3000 "bob@example.com"
    "fresh1" bob (by decide) rfl).2.2.2
    { id := 1, token := "act1", expiresAt := 2000, userId := 2 }
    (by decide) (by decide) (by decide)
  exact ⟨h1.1, h1.2, h2.1, h2.2⟩

/-! ## C10: several outstanding password-reset tokens -/

/-- A successful `find?` survives filtering as long as the found element
passes the filter. -/
theorem find_of_filter {α : Type} (l : List α) (p q : α → Bool) (r : α)
    (hfind : l.find? p = some r) (hq : q r = true) :
    (l.filter q).find? p = some r := by
  induction l with
  | nil => cases hfind
  | cons a l ih =>
    by_cases hp : p a = true
    · rw [List.find?_cons_of_pos _ hp] at hfind
      obtain rfl : a = r := Option.some.inj hfind
      rw [List.filter_cons_of_pos hq, List.find?_cons_of_pos _ hp]
    · rw [List.find?_cons_of_neg _ hp] at hfind
      by_cases hqa : q a = true
      · rw [List.filter_cons_of_pos hqa, List.find?_cons_of_neg _ hp]
        exact ih hfind
      · rw [List.filter_cons_of_neg (by simpa using hqa)]
        exact ih hfind

/-- Looking a user up by email commutes with mapping an email-preserving
update over the table. -/
theorem find_email_map (l : List UserRow) (email : String)
    (f : UserRow → UserRow) (hf : ∀ u, (f u).email = u.email) :
    (l.map f).find? (fun u => u.email == email) =
      (l.find? (fun u => u.email == email)).map f := by
  induction l with
  | nil => rfl
  | cons a l ih =>
    simp only [List.map_cons, List.find?_cons]
    by_cases ha : (a.email == email) = true
    · simp [hf, ha]
    · simp [hf, ha, ih]

/-- C10: each password-reset request for an existing user appends a fresh
reset-token row without deleting earlier ones, and a successful
`reset_password_by_token` deletes only the single consumed row (by its
id): every other outstanding row survives, and another live reset token
of the same user can still complete a reset afterwards. -/
theorem C10_multiple_reset_tokens (hp : Hasher) (db : DB) (now now2 : Int)
    (email freshToken npw npw2 : String) (user : UserRow) (prt r : TokenRow)
    (huser : db.users.find? (fun u => u.email == email) = some user) :
    (send_password_reset_email db now email freshToken).passwordResetTokens =
      db.passwordResetTokens ++
        [{ id := nextTokenId db.passwordResetTokens
           token := freshToken
           expiresAt := now + 86400
           userId := user.id }] ∧
    (db.passwordResetTokens.find? (fun t => t.token == prt.token) = some prt →
     prt.userId = user.id → ¬ prt.expiresAt < now →
      ∃ db', reset_password_by_token hp db now email prt.token npw = .ok db' ∧
        db'.passwordResetTokens =
          db.passwordResetTokens.filter (fun t => ¬ t.id == prt.id) ∧
        (∀ s ∈ db.passwordResetTokens, s.id ≠ prt.id →
          s ∈ db'.passwordResetTokens) ∧
        (db.passwordResetTokens.find? (fun t => t.token == r.token) = some r →
         r.id ≠ prt.id → r.userId = user.id → ¬ r.expiresAt < now2 →
          ∃ db'', reset_password_by_token hp db' now2 email r.token npw2 =
            .ok db'')) := by
  constructor
  · unfold send_password_reset_email
    rw [huser]
  · intro hprt hown hexp
    refine ⟨{ db with
        users := db.users.map (fun u =>
          if u.id == user.id then { u with hashedPassword := hp.hash npw }
          else u)
        passwordResetTokens := db.passwordResetTokens.filter (fun t =>
          ¬ t.id == prt.id) }, ?_, rfl, ?_, ?_⟩
    · unfold reset_password_by_token
      rw [huser, hprt]
      dsimp only
      rw [if_neg (by simp [hown]), if_neg hexp]
    · intro s hs hne
      simp only [List.mem_filter]
      exact ⟨hs, by simp [hne]⟩
    · intro hr hrid hrown hrexp
      have hmap : (db.users.map (fun u =>
          if u.id == user.id then { u with hashedPassword := hp.hash npw }
          else u)).find? (fun u => u.email == email) =
          some (if user.id == user.id then
            { user with hashedPassword := hp.hash npw } else user) := by
        rw [find_email_map _ _ _ (fun u => by split <;> rfl), huser]
        rfl
      have huser2 : (db.users.map (fun u =>
          if u.id == user.id then { u with hashedPassword := hp.hash npw }
          else u)).find? (fun u => u.email == email) =
          some { user with hashedPassword := hp.hash npw } := by
        rw [hmap]
        simp
      have htok2 : (db.passwordResetTokens.filter (fun t =>
          ¬ t.id == prt.id)).find? (fun t => t.token == r.token) = some r :=
        find_of_filter _ _ _ _ hr (by simp [hrid])
      refine ⟨{ db with
          users := (db.users.map (fun u =>
            if u.id == user.id then { u with hashedPassword := hp.hash npw }
            else u)).map (fun u =>
            if u.id == user.id then { u with hashedPassword := hp.hash npw2 }
            else u)
          passwordResetTokens := (db.passwordResetTokens.filter (fun t =>
            ¬ t.id == prt.id)).filter (fun t => ¬ t.id == r.id) }, ?_⟩
      unfold reset_password_by_token
      rw [huser2, htok2]
      dsimp only
      rw [if_neg (by simp [hrown]), if_neg hrexp]

/-- First outstanding reset token of `alice`. -/
def rowA : TokenRow := { id := 1, token := "rstA", expiresAt := 2000, userId := 1 }

/-- Second outstanding reset token of `alice`. -/
def rowB : TokenRow := { id := 2, token := "rstB", expiresAt := 2500, userId := 1 }

/-- A database where `alice` holds two live password-reset tokens at once. -/
def dbTwoResets : DB :=
  { groups := [exGroup], users := [alice], activationTokens := [],
    passwordResetTokens := [rowA, rowB], refreshTokens := [] }

/-- C10 witness: a reset request appends a third token next to the two
outstanding ones; consuming `rstA` succeeds and leaves `rstB` in place,
and `rstB` can then still complete a reset. -/
theorem C10_witness :
    (send_password_reset_email dbTwoResets 1000 "alice@example.com"
        "rstC").passwordResetTokens =
      dbTwoResets.passwordResetTokens ++
        [{ id := nextTokenId dbTwoResets.passwordResetTokens
           token := "rstC"
           expiresAt := 1000 + 86400
           userId := alice.id }] ∧
    ∃ db', reset_password_by_token exHasher dbTwoResets 1000
        "alice@example.com" "rstA" "Newpass1!" = .ok db' ∧
      rowB ∈ db'.passwordResetTokens ∧
      ∃ db'', reset_password_by_token exHasher db' 1200 "alice@example.com"
        "rstB" "Other1!aa" = .ok db'' := by
  have h := C10_multiple_reset_tokens exHasher dbTwoResets 1000 1200
    "alice@example.com" "rstC" "Newpass1!" "Other1!aa" alice rowA rowB
    (by decide)
  refine ⟨h.1, ?_⟩
  obtain ⟨db', hok, hfil, hkeep, hsecond⟩ :=
    h.2 (by decide) (by decide) (by decide)
  exact ⟨db', hok, hkeep rowB (by decide) (by decide),
    hsecond (by decide) (by decide) (by decide) (by decide)⟩
